import Mathlib

/-!
Verification development for the Wasl two-party direct-messaging application.

The server state (the three relational tables) is embedded as lists of rows;
the storage adapter (`server/storage.ts`) and the HTTP route handlers
(`server/routes.ts`) are embedded as pure state-passing functions.  Opaque
UUIDs become `Nat` identifiers, SQL timestamps become a `Nat` clock that
advances by one on every row-stamping statement (each handler issues its
database statements sequentially, so later statements carry later times).
Nullable SQL columns become `Option` fields; the SQL predicate
`is_read = false` on a nullable column is embedded as `is_read == some false`,
matching PostgreSQL three-valued logic where a NULL column fails the
comparison.
-/

namespace Wasl

/-- A row of the `profiles` table.
Modelled from the spec: the current `shared/schema.ts` is not among the
provided sources (only an older revision without these columns is), so the
`username`, `is_online`, `last_seen` and `is_blocked` columns are taken from
spec section 3, which lists them on Profile; the remaining columns match the
older schema revision and the migration script. -/
structure Profile where
  id : Nat
  email : String
  username : String
  password : String
  full_name : Option String
  avatar_url : Option String
  is_online : Option Bool
  last_seen : Option Nat
  is_blocked : Option Bool
  created_at : Nat
  updated_at : Nat
deriving DecidableEq, Repr

/-- A row of the `conversations` table. -/
structure Conversation where
  id : Nat
  participant_1 : Nat
  participant_2 : Nat
  created_at : Nat
  updated_at : Nat
deriving DecidableEq, Repr

/-- A row of the `messages` table.
Modelled from the spec: the current `shared/schema.ts` is not among the
provided sources, so the `is_read`, `is_deleted` and `reply_to_id` columns are
taken from spec section 3 ("is_read (optional bool), is_deleted (optional
bool, soft-delete), reply_to_id (optional self-reference)") — nullable
columns, hence `Option` fields.  The insert path never mentions them, and for
the behaviour the spec describes (section 8: `is_read` transitions to true
after the recipient's fetch, which flows through a `is_read = false` filter)
the column must default to `false` on insert, so `createMessage` stamps
`is_read := some false` (and symmetrically `is_deleted := some false`). -/
structure Message where
  id : Nat
  conversation_id : Nat
  sender_id : Nat
  content : String
  status : String
  is_offline : Bool
  is_read : Option Bool
  is_deleted : Option Bool
  reply_to_id : Option Nat
  created_at : Nat
deriving DecidableEq, Repr

/-- The database state, plus the clock and the id generator. -/
structure DB where
  profiles : List Profile
  conversations : List Conversation
  messages : List Message
  now : Nat
  nextId : Nat
deriving DecidableEq, Repr

/-! ### Sorting helper (embeds SQL ORDER BY) -/

/-- Insert `x` into `l` keeping the (boolean) order `le`. -/
def insertBy (le : α → α → Bool) (x : α) : List α → List α
  | [] => [x]
  | y :: ys => if le x y then x :: y :: ys else y :: insertBy le x ys

/-- Insertion sort by the boolean order `le`; embeds SQL `ORDER BY`. -/
def sortBy (le : α → α → Bool) : List α → List α
  | [] => []
  | x :: xs => insertBy le x (sortBy le xs)

theorem mem_insertBy (le : α → α → Bool) (x : α) (l : List α) (a : α) :
    a ∈ insertBy le x l ↔ a = x ∨ a ∈ l := by
  induction l with
  | nil => simp [insertBy]
  | cons y ys ih =>
      simp only [insertBy]
      by_cases h : le x y = true
      · simp [h]
      · simp [h, ih]
        tauto

theorem mem_sortBy (le : α → α → Bool) (l : List α) (a : α) :
    a ∈ sortBy le l ↔ a ∈ l := by
  induction l with
  | nil => simp [sortBy]
  | cons x xs ih => simp [sortBy, mem_insertBy, ih]

/-! ### Storage adapter (`server/storage.ts`, class DatabaseStorage) -/

/-- `getProfile`: select the profile row with the given id. -/
def getProfile (db : DB) (id : Nat) : Option Profile :=
  db.profiles.find? (fun p => p.id == id)

/-- `getProfileByEmail`. -/
def getProfileByEmail (db : DB) (email : String) : Option Profile :=
  db.profiles.find? (fun p => p.email == email)

/-- `getProfileByUsername`. -/
def getProfileByUsername (db : DB) (username : String) : Option Profile :=
  db.profiles.find? (fun p => p.username == username)

/-- Fields insertable at signup (`insertProfileSchema` + username). -/
structure InsertProfile where
  email : String
  username : String
  password : String
  full_name : Option String
deriving DecidableEq, Repr

/-- `createProfile`: insert a profile row, letting the database fill the
defaults (fresh id, current timestamps, NULL optional columns). -/
def createProfile (db : DB) (ins : InsertProfile) : Profile × DB :=
  let p : Profile :=
    { id := db.nextId
      email := ins.email
      username := ins.username
      password := ins.password
      full_name := ins.full_name
      avatar_url := none
      is_online := none
      last_seen := none
      is_blocked := none
      created_at := db.now
      updated_at := db.now }
  (p, { db with profiles := db.profiles ++ [p], nextId := db.nextId + 1, now := db.now + 1 })

/-- A `Partial<Profile>` update object: `some v` is a present field. -/
structure ProfileUpdates where
  full_name : Option String := none
  avatar_url : Option String := none
  is_online : Option Bool := none
  last_seen : Option Nat := none
  is_blocked : Option Bool := none
deriving DecidableEq, Repr

/-- Apply a `Partial<Profile>` update to a row, stamping `updated_at`
(`.set({ ...updates, updated_at: new Date() })`). -/
def applyProfileUpdates (u : ProfileUpdates) (now : Nat) (p : Profile) : Profile :=
  { p with
    full_name := match u.full_name with | some v => some v | none => p.full_name
    avatar_url := match u.avatar_url with | some v => some v | none => p.avatar_url
    is_online := match u.is_online with | some v => some v | none => p.is_online
    last_seen := match u.last_seen with | some v => some v | none => p.last_seen
    is_blocked := match u.is_blocked with | some v => some v | none => p.is_blocked
    updated_at := now }

/-- `updateProfile`: update the row with the given id, returning the updated
row (`result[0]`, `none` when no row matched). -/
def updateProfile (db : DB) (id : Nat) (u : ProfileUpdates) : Option Profile × DB :=
  let rows := db.profiles.map (fun p => if p.id == id then applyProfileUpdates u db.now p else p)
  let updated := rows.find? (fun p => p.id == id)
  (updated, { db with profiles := rows, now := db.now + 1 })

/-- `getConversation`. -/
def getConversation (db : DB) (id : Nat) : Option Conversation :=
  db.conversations.find? (fun c => c.id == id)

/-- The passwordless profile columns selected for `other_participant` in
`getConversationsForUser` (the select lists id, username, email, full_name,
avatar_url, created_at, updated_at — no password). -/
structure OtherParticipant where
  id : Nat
  username : String
  email : String
  full_name : Option String
  avatar_url : Option String
  created_at : Nat
  updated_at : Nat
deriving DecidableEq, Repr

/-- Projection used by the left join of `getConversationsForUser`. -/
def toOtherParticipant (p : Profile) : OtherParticipant :=
  { id := p.id, username := p.username, email := p.email, full_name := p.full_name
    avatar_url := p.avatar_url, created_at := p.created_at, updated_at := p.updated_at }

/-- A row returned by `getConversationsForUser`: the conversation columns plus
the joined other participant. -/
structure ConvRow where
  id : Nat
  participant_1 : Nat
  participant_2 : Nat
  created_at : Nat
  updated_at : Nat
  other_participant : Option OtherParticipant
deriving DecidableEq, Repr

/-- `getConversationsForUser`: conversations where the user is a participant,
left-joined with the other participant's (passwordless) profile, ordered by
`updated_at` descending. -/
def getConversationsForUser (db : DB) (userId : Nat) : List ConvRow :=
  let mine := db.conversations.filter
    (fun c => c.participant_1 == userId || c.participant_2 == userId)
  let ordered := sortBy (fun a b => b.updated_at ≤ a.updated_at) mine
  ordered.map (fun c =>
    let other := db.profiles.find? (fun p =>
      (c.participant_1 == p.id && c.participant_2 == userId) ||
      (c.participant_2 == p.id && c.participant_1 == userId))
    { id := c.id, participant_1 := c.participant_1, participant_2 := c.participant_2
      created_at := c.created_at, updated_at := c.updated_at
      other_participant := other.map toOtherParticipant })

/-- `createConversation`: insert a conversation row with database defaults. -/
def createConversation (db : DB) (participant_1 participant_2 : Nat) : Conversation × DB :=
  let c : Conversation :=
    { id := db.nextId, participant_1 := participant_1, participant_2 := participant_2
      created_at := db.now, updated_at := db.now }
  (c, { db with conversations := db.conversations ++ [c], nextId := db.nextId + 1, now := db.now + 1 })

/-- `updateConversation`: `.set({ ...updates, updated_at: new Date() })`.  The
only call site (`POST /conversations/:id/messages`) passes empty updates, so
only the `updated_at` stamp is embedded. -/
def updateConversation (db : DB) (id : Nat) : Option Conversation × DB :=
  let rows := db.conversations.map (fun c => if c.id == id then { c with updated_at := db.now } else c)
  let updated := rows.find? (fun c => c.id == id)
  (updated, { db with conversations := rows, now := db.now + 1 })

/-- `getMessage`. -/
def getMessage (db : DB) (id : Nat) : Option Message :=
  db.messages.find? (fun m => m.id == id)

/-- `getMessagesForConversation`: messages of the conversation ordered by
`created_at` ascending. -/
def getMessagesForConversation (db : DB) (conversationId : Nat) : List Message :=
  sortBy (fun a b => a.created_at ≤ b.created_at)
    (db.messages.filter (fun m => m.conversation_id == conversationId))

/-- Fields insertable through `insertMessageSchema`. -/
structure InsertMessage where
  conversation_id : Nat
  sender_id : Nat
  content : String
  status : String
  is_offline : Bool
deriving DecidableEq, Repr

/-- `createMessage`: insert a message row; the database fills the defaults
(fresh id, `created_at := now`, `is_read`/`is_deleted` default to false,
`reply_to_id` NULL — see the `Message` doc comment for the defaults). -/
def createMessage (db : DB) (ins : InsertMessage) : Message × DB :=
  let m : Message :=
    { id := db.nextId
      conversation_id := ins.conversation_id
      sender_id := ins.sender_id
      content := ins.content
      status := ins.status
      is_offline := ins.is_offline
      is_read := some false
      is_deleted := some false
      reply_to_id := none
      created_at := db.now }
  (m, { db with messages := db.messages ++ [m], nextId := db.nextId + 1, now := db.now + 1 })

/-- A `Partial<Message>` update object; the route layer only ever sets
`is_deleted`. -/
structure MessageUpdates where
  is_deleted : Option Bool := none
deriving DecidableEq, Repr

/-- Apply a `Partial<Message>` update (`.set(updates)`, no timestamp stamp). -/
def applyMessageUpdates (u : MessageUpdates) (m : Message) : Message :=
  { m with is_deleted := match u.is_deleted with | some b => some b | none => m.is_deleted }

/-- `updateMessage`: update the row with the given id, returning it. -/
def updateMessage (db : DB) (id : Nat) (u : MessageUpdates) : Option Message × DB :=
  let rows := db.messages.map (fun m => if m.id == id then applyMessageUpdates u m else m)
  let updated := rows.find? (fun m => m.id == id)
  (updated, { db with messages := rows })

/-- The WHERE clause of `getUnreadMessagesCount`: same conversation, `is_read
= false` (NULL fails the SQL comparison), sender different from the user. -/
def isUnreadFor (conversationId userId : Nat) (m : Message) : Bool :=
  m.conversation_id == conversationId && m.is_read == some false && m.sender_id != userId

/-- `getUnreadMessagesCount`: `count(*)` over the unread filter. -/
def getUnreadMessagesCount (db : DB) (conversationId userId : Nat) : Nat :=
  (db.messages.filter (isUnreadFor conversationId userId)).length

/-- `markMessagesAsRead`: one UPDATE setting `is_read := true` on every row of
the conversation not sent by the user whose `is_read` is `false`. -/
def markMessagesAsRead (db : DB) (conversationId userId : Nat) : DB :=
  { db with messages := db.messages.map (fun m =>
      if m.conversation_id == conversationId && m.sender_id != userId && m.is_read == some false
      then { m with is_read := some true } else m) }

/-! ### External collaborators (bcrypt, JWT) — abstract executable models -/

/-- Abstract model of `bcrypt.hash` (external collaborator). -/
def bcryptHash (plain : String) : String :=
  "bcrypt$" ++ plain

/-- Abstract model of `bcrypt.compare`: succeeds exactly on the hash of the
submitted password. -/
def bcryptCompare (plain stored : String) : Bool :=
  stored == bcryptHash plain

/-- Abstract model of a signed JWT (external collaborator): carries the
signing secret and the `userId` payload. -/
structure Token where
  secret : String
  userId : Nat
deriving DecidableEq, Repr

/-- `JWT_SECRET` (the default value; the env override is deployment input). -/
def JWT_SECRET : String := "your-secret-key"

/-- `jwt.sign({ userId }, JWT_SECRET)`. -/
def jwtSign (secret : String) (userId : Nat) : Token :=
  { secret := secret, userId := userId }

/-- `jwt.verify(token, JWT_SECRET)`: yields the payload when the signature
matches, fails otherwise. -/
def jwtVerify (secret : String) (t : Token) : Option Nat :=
  if t.secret == secret then some t.userId else none

/-- Outcome of the `authenticateToken` middleware. -/
inductive AuthOutcome where
  | noToken
  | badToken
  | unknownUser
  | ok (user : Profile)
deriving DecidableEq, Repr

/-- `authenticateToken`: requires a bearer token (401 when absent), verifies
it (403 when verification throws), resolves the payload's `userId` to an
existing profile (401 when absent) and attaches that profile as `req.user`. -/
def authenticateToken (db : DB) (token : Option Token) : AuthOutcome :=
  match token with
  | none => .noToken
  | some t =>
      match jwtVerify JWT_SECRET t with
      | none => .badToken
      | some userId =>
          match getProfile db userId with
          | none => .unknownUser
          | some user => .ok user

/-! ### Response shapes -/

/-- A user object as placed in a JSON response: the profile columns together
with the `password` key, which every handler sets to `undefined`
(`{ ...user, password: undefined }`), embedded as an `Option` that is `none`
when the key is undefined/absent. -/
structure ResponseUser where
  id : Nat
  email : String
  username : String
  full_name : Option String
  avatar_url : Option String
  is_online : Option Bool
  last_seen : Option Nat
  is_blocked : Option Bool
  created_at : Nat
  updated_at : Nat
  password : Option String
deriving DecidableEq, Repr

/-- `{ ...user, password: undefined }`. -/
def sanitizeProfile (p : Profile) : ResponseUser :=
  { id := p.id, email := p.email, username := p.username, full_name := p.full_name
    avatar_url := p.avatar_url, is_online := p.is_online, last_seen := p.last_seen
    is_blocked := p.is_blocked, created_at := p.created_at, updated_at := p.updated_at
    password := none }

/-- Response of the signup/signin routes. -/
structure AuthResponse where
  status : Nat
  user : Option ResponseUser
  token : Option Token
  sessionUser : Option ResponseUser
  error : Option String
deriving DecidableEq, Repr

/-- A message as returned with its sender attached
(`{ ...message, sender }`). -/
structure ResponseMessage where
  message : Message
  sender : Option ResponseUser
deriving DecidableEq, Repr

/-- One entry of the `GET /api/conversations` response. -/
structure ConversationDetail where
  id : Nat
  participant_1 : Nat
  participant_2 : Nat
  created_at : Nat
  updated_at : Nat
  other_participant : Option ResponseUser
  last_message : Option Message
  unread_count : Nat
deriving DecidableEq, Repr

/-- Response of `POST /api/conversations`. -/
structure ConvResponse where
  status : Nat
  convId : Option Nat
  participant_1 : Option Nat
  participant_2 : Option Nat
  other_participant : Option ResponseUser
  error : Option String
deriving DecidableEq, Repr

/-- Response of `GET /api/conversations/:conversationId/messages`. -/
structure MessagesResponse where
  status : Nat
  messages : Option (List ResponseMessage)
  error : Option String
deriving DecidableEq, Repr

/-- Response of `POST /api/conversations/:conversationId/messages`. -/
structure SendResponse where
  status : Nat
  message : Option ResponseMessage
  error : Option String
deriving DecidableEq, Repr

/-- Response of `PATCH /api/profiles/me` and the profile-search routes. -/
structure ProfileResponse where
  status : Nat
  user : Option ResponseUser
  error : Option String
deriving DecidableEq, Repr

/-- Response of `DELETE /api/messages/:messageId`. -/
structure SimpleResponse where
  status : Nat
  success : Bool
  error : Option String
deriving DecidableEq, Repr

/-! ### Route handlers (`server/routes.ts`) -/

/-- `POST /api/auth/signup`: duplicate-email check, duplicate-username check,
hash the password, create the profile, sign a token, respond with the
sanitized user (the zod payload validation is an external collaborator and is
assumed to have succeeded). -/
def signupHandler (db : DB) (email username password : String)
    (full_name : Option String) : AuthResponse × DB :=
  match getProfileByEmail db email with
  | some _ => ({ status := 400, user := none, token := none, sessionUser := none
                 error := some "المستخدم موجود بالفعل" }, db)
  | none =>
      match getProfileByUsername db username with
      | some _ => ({ status := 400, user := none, token := none, sessionUser := none
                     error := some "اسم المستخدم موجود بالفعل" }, db)
      | none =>
          let hashed := bcryptHash password
          let (user, db) := createProfile db
            { email := email, username := username, password := hashed, full_name := full_name }
          let token := jwtSign JWT_SECRET user.id
          ({ status := 200, user := some (sanitizeProfile user), token := some token
             sessionUser := some (sanitizeProfile user), error := none }, db)

/-- The generic signin failure message, shared by the unknown-email and the
wrong-password branches. -/
def signinErrorMessage : String := "بريد إلكتروني أو كلمة مرور خاطئة"

/-- `POST /api/auth/signin`: look up by email, verify the password hash, sign
a token; both failure branches return 400 with `signinErrorMessage`. -/
def signinHandler (db : DB) (email password : String) : AuthResponse :=
  match getProfileByEmail db email with
  | none => { status := 400, user := none, token := none, sessionUser := none
              error := some signinErrorMessage }
  | some user =>
      if bcryptCompare password user.password then
        let token := jwtSign JWT_SECRET user.id
        { status := 200, user := some (sanitizeProfile user), token := some token
          sessionUser := some (sanitizeProfile user), error := none }
      else
        { status := 400, user := none, token := none, sessionUser := none
          error := some signinErrorMessage }

/-- `GET /api/auth/user`: responds with the sanitized authenticated user. -/
def getAuthUserHandler (db : DB) (token : Option Token) : ProfileResponse :=
  match authenticateToken db token with
  | .noToken => { status := 401, user := none, error := some "Access token required" }
  | .badToken => { status := 403, user := none, error := some "Invalid token" }
  | .unknownUser => { status := 401, user := none, error := some "Invalid token" }
  | .ok user => { status := 200, user := some (sanitizeProfile user), error := none }

/-- `GET /api/conversations` (after authentication): each conversation of the
user annotated with the sanitized other participant, the last message and the
unread count.  Read-only. -/
def getConversationsHandler (db : DB) (user : Profile) : List ConversationDetail :=
  (getConversationsForUser db user.id).map (fun conv =>
    let otherParticipantId := if conv.participant_1 == user.id then conv.participant_2 else conv.participant_1
    let otherParticipant := getProfile db otherParticipantId
    let msgs := getMessagesForConversation db conv.id
    { id := conv.id, participant_1 := conv.participant_1, participant_2 := conv.participant_2
      created_at := conv.created_at, updated_at := conv.updated_at
      other_participant := otherParticipant.map sanitizeProfile
      last_message := msgs.getLast?
      unread_count := getUnreadMessagesCount db conv.id user.id })

/-- The pair-matching predicate of `POST /api/conversations`' in-memory
search. -/
def pairMatches (userId otherId : Nat) (conv : ConvRow) : Bool :=
  (conv.participant_1 == userId && conv.participant_2 == otherId) ||
  (conv.participant_1 == otherId && conv.participant_2 == userId)

/-- `POST /api/conversations` (after authentication): resolve the target by
username (404), reject self-conversation (400), search the caller's existing
conversations for the pair and return the match, otherwise insert a new
conversation row. -/
def postConversationHandler (db : DB) (user : Profile)
    (participant_username : String) : ConvResponse × DB :=
  match getProfileByUsername db participant_username with
  | none => ({ status := 404, convId := none, participant_1 := none, participant_2 := none
               other_participant := none, error := some "المستخدم غير موجود" }, db)
  | some otherParticipant =>
      if otherParticipant.id == user.id then
        ({ status := 400, convId := none, participant_1 := none, participant_2 := none
           other_participant := none, error := some "لا يمكن إنشاء محادثة مع نفسك" }, db)
      else
        let existingConversations := getConversationsForUser db user.id
        match existingConversations.find? (pairMatches user.id otherParticipant.id) with
        | some existingConv =>
            ({ status := 200, convId := some existingConv.id
               participant_1 := some existingConv.participant_1
               participant_2 := some existingConv.participant_2
               other_participant := some (sanitizeProfile otherParticipant)
               error := none }, db)
        | none =>
            let (conversation, db) := createConversation db user.id otherParticipant.id
            ({ status := 200, convId := some conversation.id
               participant_1 := some conversation.participant_1
               participant_2 := some conversation.participant_2
               other_participant := some (sanitizeProfile otherParticipant)
               error := none }, db)

/-- `GET /api/conversations/:conversationId/messages` (after authentication):
membership check (403), fetch the ordered messages, mark the not-from-self
messages read, attach sanitized senders to the fetched messages. -/
def getMessagesHandler (db : DB) (user : Profile)
    (conversationId : Nat) : MessagesResponse × DB :=
  match getConversation db conversationId with
  | none => ({ status := 403, messages := none, error := some "Access denied" }, db)
  | some conversation =>
      if conversation.participant_1 != user.id && conversation.participant_2 != user.id then
        ({ status := 403, messages := none, error := some "Access denied" }, db)
      else
        let msgs := getMessagesForConversation db conversationId
        let db := markMessagesAsRead db conversationId user.id
        let messagesWithSender := msgs.map (fun message =>
          { message := message
            sender := (getProfile db message.sender_id).map sanitizeProfile })
        ({ status := 200, messages := some messagesWithSender, error := none }, db)

/-- `POST /api/conversations/:conversationId/messages` (after
authentication): the zod body carries only `content`, `status` (default
"sent") and `is_offline` (default false); membership check (403), insert the
message with `sender_id := req.user.id`, stamp the conversation's
`updated_at`, respond with the message and the sanitized sender. -/
def postMessageHandler (db : DB) (user : Profile) (conversationId : Nat)
    (content status : String) (is_offline : Bool) : SendResponse × DB :=
  match getConversation db conversationId with
  | none => ({ status := 403, message := none, error := some "Access denied" }, db)
  | some conversation =>
      if conversation.participant_1 != user.id && conversation.participant_2 != user.id then
        ({ status := 403, message := none, error := some "Access denied" }, db)
      else
        let (message, db) := createMessage db
          { conversation_id := conversationId, sender_id := user.id
            content := content, status := status, is_offline := is_offline }
        let (_, db) := updateConversation db conversationId
        ({ status := 200
           message := some { message := message, sender := some (sanitizeProfile user) }
           error := none }, db)

/-- `POST /api/conversations/:conversationId/messages` including the
`authenticateToken` middleware. -/
def authedPostMessage (db : DB) (token : Option Token) (conversationId : Nat)
    (content status : String) (is_offline : Bool) : SendResponse × DB :=
  match authenticateToken db token with
  | .noToken => ({ status := 401, message := none, error := some "Access token required" }, db)
  | .badToken => ({ status := 403, message := none, error := some "Invalid token" }, db)
  | .unknownUser => ({ status := 401, message := none, error := some "Invalid token" }, db)
  | .ok user => postMessageHandler db user conversationId content status is_offline

/-- `GET /api/profiles/search` (after authentication). -/
def searchProfileHandler (db : DB) (username : String) : ProfileResponse :=
  match getProfileByUsername db username with
  | none => { status := 404, user := none, error := some "المستخدم غير موجود" }
  | some profile => { status := 200, user := some (sanitizeProfile profile), error := none }

/-- `PATCH /api/profiles/me` (after authentication): collect the provided
`full_name`/`avatar_url` body fields into the update object and apply it. -/
def patchProfileMeHandler (db : DB) (user : Profile)
    (full_name avatar_url : Option String) : ProfileResponse × DB :=
  let updates : ProfileUpdates := { full_name := full_name, avatar_url := avatar_url }
  let (updatedProfile, db) := updateProfile db user.id updates
  match updatedProfile with
  | none => ({ status := 404, user := none, error := some "المستخدم غير موجود" }, db)
  | some p => ({ status := 200, user := some (sanitizeProfile p), error := none }, db)

/-- `DELETE /api/messages/:messageId` (after authentication): 404 when the
message is unknown, 403 when the caller is not the sender, otherwise set
`is_deleted := true` on the row. -/
def deleteMessageHandler (db : DB) (user : Profile) (messageId : Nat) : SimpleResponse × DB :=
  match getMessage db messageId with
  | none => ({ status := 404, success := false, error := some "الرسالة غير موجودة" }, db)
  | some message =>
      if message.sender_id != user.id then
        ({ status := 403, success := false, error := some "لا يمكنك حذف هذه الرسالة" }, db)
      else
        let (_, db) := updateMessage db messageId { is_deleted := some true }
        ({ status := 200, success := true, error := none }, db)

/-! ### Client chat pane (`client/src/components/chat/ChatArea.tsx`) -/

/-- The client `Profile` type (`client/src/types/index.ts`); ids are strings
on the client. -/
structure ClientProfile where
  id : String
  email : String
  username : String
  full_name : Option String
  avatar_url : Option String
deriving DecidableEq, Repr

/-- The client `Message` type (`client/src/types/index.ts`). -/
structure ClientMessage where
  id : String
  conversation_id : String
  sender_id : String
  content : String
  status : String
  is_offline : Bool
  created_at : Nat
  sender : Option ClientProfile
deriving DecidableEq, Repr

/-- The client `Conversation` type (the fields `sendMessage` reads). -/
structure ClientConversation where
  id : String
deriving DecidableEq, Repr

/-- Whitespace test backing the model of JavaScript `String.prototype.trim`. -/
def isWs (c : Char) : Bool :=
  c == ' ' || c == '\t' || c == '\n' || c == '\r'

/-- Executable model of JavaScript `String.prototype.trim`: strip leading and
trailing whitespace. -/
def jsTrim (s : String) : String :=
  String.mk (((s.data.dropWhile isWs).reverse.dropWhile isWs).reverse)

/-- The component state read and written by `sendMessage`. -/
structure ChatState where
  messages : List ClientMessage
  newMessage : String
  isOnline : Bool
  loading : Bool
deriving DecidableEq, Repr

/-- An HTTP request issued through the client API wrapper. -/
inductive ApiCall where
  | sendMessage (conversationId : String) (content : String) (status : String) (is_offline : Bool)
deriving DecidableEq, Repr

/-- The `sendMessage` handler of `ChatArea`: guard on empty input / missing
conversation / missing user; when offline, synthesize a local message
(`temp-` id from `Date.now()`, status "sending", `is_offline` true, no
sender) and append it without any API call; when online, issue the API call
and append the server's reply on success (`serverReply` stands for the
awaited `apiClient.sendMessage` result, `none` for the error path, which only
raises a toast). -/
def clientSendMessage (conversation : Option ClientConversation)
    (user : Option ClientProfile) (st : ChatState) (now : Nat)
    (serverReply : Option ClientMessage) : ChatState × List ApiCall :=
  if jsTrim st.newMessage == "" then (st, [])
  else
    match conversation, user with
    | some conv, some u =>
        let messageContent := jsTrim st.newMessage
        let st := { st with newMessage := "" }
        if !st.isOnline then
          let offlineMessage : ClientMessage :=
            { id := "temp-" ++ toString now
              conversation_id := conv.id
              sender_id := u.id
              content := messageContent
              status := "sending"
              is_offline := true
              created_at := now
              sender := none }
          ({ st with messages := st.messages ++ [offlineMessage] }, [])
        else
          let call := ApiCall.sendMessage conv.id messageContent "sent" false
          match serverReply with
          | some sentMessage =>
              ({ st with messages := st.messages ++ [sentMessage], loading := false }, [call])
          | none => ({ st with loading := false }, [call])
    | _, _ => (st, [])

/-! ### Shared lemmas -/

@[simp]
theorem sanitizeProfile_password (p : Profile) : (sanitizeProfile p).password = none := rfl

/-- `find?` commutes with a `map` whose function does not change the truth of
the search predicate. -/
theorem find?_map_eq {α : Type} (f : α → α) (p : α → Bool)
    (hpf : ∀ a, p (f a) = p a) (l : List α) :
    (l.map f).find? p = (l.find? p).map f := by
  induction l with
  | nil => simp
  | cons x xs ih =>
      simp only [List.map_cons, List.find?]
      rw [hpf x]
      cases hx : p x <;> simp [ih]

/-- Reachable-state invariant: no stored message carries a NULL `is_read`
(inserts default the column to false, and no statement ever writes NULL). -/
def ReadFlagSet (ms : List Message) : Prop := ∀ m ∈ ms, m.is_read ≠ none

theorem readFlagSet_nil : ReadFlagSet [] := by
  intro m hm
  simp at hm

theorem readFlagSet_createMessage (db : DB) (ins : InsertMessage)
    (h : ReadFlagSet db.messages) : ReadFlagSet (createMessage db ins).2.messages := by
  intro m hm
  simp only [createMessage, List.mem_append, List.mem_singleton] at hm
  rcases hm with hm | hm
  · exact h m hm
  · subst hm; simp

theorem readFlagSet_markMessagesAsRead (db : DB) (c u : Nat)
    (h : ReadFlagSet db.messages) : ReadFlagSet (markMessagesAsRead db c u).messages := by
  intro m hm
  simp only [markMessagesAsRead, List.mem_map] at hm
  obtain ⟨m0, hm0, hmap⟩ := hm
  by_cases hc : (m0.conversation_id == c && m0.sender_id != u && m0.is_read == some false) = true
  · rw [hc] at hmap; simp at hmap; subst hmap; simp
  · rw [Bool.not_eq_true] at hc; rw [hc] at hmap; simp at hmap; subst hmap
    exact h m0 hm0

theorem readFlagSet_updateMessage (db : DB) (id : Nat) (u : MessageUpdates)
    (h : ReadFlagSet db.messages) : ReadFlagSet (updateMessage db id u).2.messages := by
  intro m hm
  simp only [updateMessage, List.mem_map] at hm
  obtain ⟨m0, hm0, hmap⟩ := hm
  have hr : m.is_read = m0.is_read := by
    by_cases hc : (m0.id == id) = true
    · rw [hc] at hmap; simp at hmap; subst hmap; simp [applyMessageUpdates]
    · rw [Bool.not_eq_true] at hc; rw [hc] at hmap; simp at hmap; subst hmap; rfl
  rw [hr]
  exact h m0 hm0

/-! ### Sample data for concrete evaluations -/

def alice : Profile :=
  { id := 1, email := "alice@example.com", username := "alice"
    password := bcryptHash "alicepw", full_name := some "Alice"
    avatar_url := none, is_online := none, last_seen := none, is_blocked := none
    created_at := 0, updated_at := 0 }

def bob : Profile :=
  { id := 2, email := "bob@example.com", username := "bob"
    password := bcryptHash "bobpw", full_name := some "Bob"
    avatar_url := none, is_online := none, last_seen := none, is_blocked := none
    created_at := 0, updated_at := 0 }

def conv12 : Conversation :=
  { id := 10, participant_1 := 1, participant_2 := 2, created_at := 1, updated_at := 1 }

def msgFromAlice : Message :=
  { id := 20, conversation_id := 10, sender_id := 1, content := "hello"
    status := "sent", is_offline := false, is_read := some false
    is_deleted := some false, reply_to_id := none, created_at := 2 }

def db0 : DB :=
  { profiles := [alice, bob], conversations := [conv12]
    messages := [msgFromAlice], now := 3, nextId := 30 }

/-- A database with no conversation between the two users yet. -/
def dbNoConv : DB :=
  { profiles := [alice, bob], conversations := [], messages := [], now := 3, nextId := 30 }

/-! ### C6 — signin failure indistinguishability -/

/-- C6: a signin with an email matching no profile and a signin with an
existing email but a password failing hash verification produce responses
with the same status code and the same error message. -/
theorem signin_failures_indistinguishable (db : DB) (e1 p1 e2 p2 : String)
    (prof : Profile)
    (h1 : getProfileByEmail db e1 = none)
    (h2 : getProfileByEmail db e2 = some prof)
    (h3 : bcryptCompare p2 prof.password = false) :
    (signinHandler db e1 p1).status = (signinHandler db e2 p2).status ∧
    (signinHandler db e1 p1).error = (signinHandler db e2 p2).error := by
  simp [signinHandler, h1, h2, h3]

theorem signin_failures_indistinguishable_witness :
    (getProfileByEmail db0 "carol@example.com" = none ∧
     getProfileByEmail db0 "alice@example.com" = some alice ∧
     bcryptCompare "wrong" alice.password = false) ∧
    ((signinHandler db0 "carol@example.com" "whatever").status =
       (signinHandler db0 "alice@example.com" "wrong").status ∧
     (signinHandler db0 "carol@example.com" "whatever").error =
       (signinHandler db0 "alice@example.com" "wrong").error) :=
  ⟨by decide,
   signin_failures_indistinguishable db0 "carol@example.com" "whatever"
     "alice@example.com" "wrong" alice (by decide) (by decide) (by decide)⟩

/-! ### C8 — offline send is local-only -/

/-- C8: with the browser offline and a non-empty composed text, the client
`sendMessage` handler appends exactly one locally synthesized message — a
`temp-` id, status "sending", `is_offline` true — to the in-memory list and
issues no API call. -/
theorem offline_send_local_only (conv : ClientConversation) (u : ClientProfile)
    (st : ChatState) (now : Nat) (reply : Option ClientMessage)
    (hne : jsTrim st.newMessage ≠ "")
    (hoff : st.isOnline = false) :
    clientSendMessage (some conv) (some u) st now reply =
      ({ st with
          newMessage := ""
          messages := st.messages ++
            [{ id := "temp-" ++ toString now, conversation_id := conv.id
               sender_id := u.id, content := jsTrim st.newMessage
               status := "sending", is_offline := true
               created_at := now, sender := none }] }, []) := by
  simp [clientSendMessage, hne, hoff]

def aliceClient : ClientProfile :=
  { id := "1", email := "alice@example.com", username := "alice"
    full_name := none, avatar_url := none }

def convClient : ClientConversation := { id := "10" }

def chatState0 : ChatState :=
  { messages := [], newMessage := "hi ", isOnline := false, loading := false }

def offlineMsg0 : ClientMessage :=
  { id := "temp-5", conversation_id := "10", sender_id := "1"
    content := "hi", status := "sending", is_offline := true
    created_at := 5, sender := none }

theorem offline_send_local_only_witness :
    (jsTrim chatState0.newMessage ≠ "" ∧ chatState0.isOnline = false) ∧
    clientSendMessage (some convClient) (some aliceClient) chatState0 5 none =
      ({ chatState0 with newMessage := "", messages := chatState0.messages ++ [offlineMsg0] }, []) :=
  ⟨by decide,
   by
    have h := offline_send_local_only convClient aliceClient chatState0 5 none
      (by decide) (by decide)
    simpa [chatState0, convClient, aliceClient, offlineMsg0] using h⟩

/-! ### C5 — message soft deletion -/

/-- C5: `DELETE /messages/:id` on an existing message by a non-sender answers
403 and changes nothing; by the sender it answers 200, leaves the row stored
and retrievable with `is_deleted` set to true and every other field
unchanged. -/
theorem deleteMessage_soft (db : DB) (user : Profile) (mid : Nat) (m : Message)
    (hm : getMessage db mid = some m) :
    (m.sender_id ≠ user.id →
      (deleteMessageHandler db user mid).1.status = 403 ∧
      (deleteMessageHandler db user mid).2 = db) ∧
    (m.sender_id = user.id →
      (deleteMessageHandler db user mid).1.status = 200 ∧
      getMessage (deleteMessageHandler db user mid).2 mid =
        some { m with is_deleted := some true } ∧
      (deleteMessageHandler db user mid).2.messages.length = db.messages.length ∧
      (deleteMessageHandler db user mid).2.profiles = db.profiles ∧
      (deleteMessageHandler db user mid).2.conversations = db.conversations) := by
  have hfind := List.find?_some hm
  have hm' : db.messages.find? (fun x => x.id == mid) = some m := hm
  have hpred : ∀ a : Message,
      ((if a.id == mid then applyMessageUpdates { is_deleted := some true } a else a).id == mid)
        = (a.id == mid) := by
    intro a
    by_cases ha : (a.id == mid) = true
    · simp [ha, applyMessageUpdates]
    · simp [Bool.not_eq_true] at ha
      simp [ha]
  have hid : m.id = mid := by simpa using hfind
  have hupd : (db.messages.map (fun x =>
      if x.id == mid then applyMessageUpdates { is_deleted := some true } x else x)).find?
        (fun x => x.id == mid) = some { m with is_deleted := some true } := by
    rw [find?_map_eq (fun x =>
        if x.id == mid then applyMessageUpdates { is_deleted := some true } x else x)
      (fun x => x.id == mid) hpred db.messages, hm']
    simp [hid, applyMessageUpdates]
  constructor
  · intro hne
    simp [deleteMessageHandler, hm, hne]
  · intro heq
    have hgf : (m.sender_id != user.id) = false := by simp [heq]
    have hrun : deleteMessageHandler db user mid =
        ({ status := 200, success := true, error := none },
         { db with messages := db.messages.map (fun x =>
             if x.id == mid then applyMessageUpdates { is_deleted := some true } x else x) }) := by
      simp only [deleteMessageHandler, hm, hgf, Bool.false_eq_true, if_false, updateMessage]
    rw [hrun]
    exact ⟨rfl, hupd, by simp, rfl, rfl⟩

theorem deleteMessage_soft_witness :
    (getMessage db0 20 = some msgFromAlice) ∧
    ((msgFromAlice.sender_id ≠ bob.id →
      (deleteMessageHandler db0 bob 20).1.status = 403 ∧
      (deleteMessageHandler db0 bob 20).2 = db0) ∧
    (msgFromAlice.sender_id = bob.id →
      (deleteMessageHandler db0 bob 20).1.status = 200 ∧
      getMessage (deleteMessageHandler db0 bob 20).2 20 =
        some { msgFromAlice with is_deleted := some true } ∧
      (deleteMessageHandler db0 bob 20).2.messages.length = db0.messages.length ∧
      (deleteMessageHandler db0 bob 20).2.profiles = db0.profiles ∧
      (deleteMessageHandler db0 bob 20).2.conversations = db0.conversations)) :=
  ⟨by decide, deleteMessage_soft db0 bob 20 msgFromAlice (by decide)⟩

/-! ### C7 — profile patch frame -/

/-- C7: `PATCH /profiles/me` only writes `full_name` and `avatar_url` (besides
the `updated_at` stamp every update statement applies): the profile's id,
email, username, password, created_at — and the untouched status columns —
keep their values, while `full_name`/`avatar_url` take the request values
exactly when the request provides them. -/
theorem patchProfileMe_frame (db : DB) (user p : Profile) (fn av : Option String)
    (hp : getProfile db user.id = some p) :
    ∃ p', (patchProfileMeHandler db user fn av).1.status = 200 ∧
      getProfile (patchProfileMeHandler db user fn av).2 user.id = some p' ∧
      p'.id = p.id ∧ p'.email = p.email ∧ p'.username = p.username ∧
      p'.password = p.password ∧ p'.created_at = p.created_at ∧
      p'.is_online = p.is_online ∧ p'.last_seen = p.last_seen ∧
      p'.is_blocked = p.is_blocked ∧
      p'.full_name = (match fn with | some v => some v | none => p.full_name) ∧
      p'.avatar_url = (match av with | some v => some v | none => p.avatar_url) := by
  have hfind := List.find?_some hp
  have hp' : db.profiles.find? (fun q => q.id == user.id) = some p := hp
  have hpred : ∀ a : Profile,
      ((if a.id == user.id then applyProfileUpdates { full_name := fn, avatar_url := av } db.now a else a).id
        == user.id) = (a.id == user.id) := by
    intro a
    by_cases ha : (a.id == user.id) = true
    · simp [ha, applyProfileUpdates]
    · simp [Bool.not_eq_true] at ha
      simp [ha]
  have hid : p.id = user.id := by simpa using hfind
  have hrows : (db.profiles.map (fun q =>
      if q.id == user.id then applyProfileUpdates { full_name := fn, avatar_url := av } db.now q else q)).find?
        (fun q => q.id == user.id) =
      some (applyProfileUpdates { full_name := fn, avatar_url := av } db.now p) := by
    rw [find?_map_eq (fun q =>
        if q.id == user.id then applyProfileUpdates { full_name := fn, avatar_url := av } db.now q else q)
      (fun q => q.id == user.id) hpred db.profiles, hp']
    simp [hid]
  have hrun : patchProfileMeHandler db user fn av =
      ({ status := 200
         user := some (sanitizeProfile (applyProfileUpdates { full_name := fn, avatar_url := av } db.now p))
         error := none },
       { db with
          profiles := db.profiles.map (fun q =>
            if q.id == user.id then applyProfileUpdates { full_name := fn, avatar_url := av } db.now q else q)
          now := db.now + 1 }) := by
    simp only [patchProfileMeHandler, updateProfile]
    rw [hrows]
  refine ⟨applyProfileUpdates { full_name := fn, avatar_url := av } db.now p, ?_, ?_, ?_⟩
  · rw [hrun]
  · rw [hrun]
    exact hrows
  · simp [applyProfileUpdates]

theorem patchProfileMe_frame_witness :
    (getProfile db0 alice.id = some alice) ∧
    (∃ p', (patchProfileMeHandler db0 alice (some "Alice B") none).1.status = 200 ∧
      getProfile (patchProfileMeHandler db0 alice (some "Alice B") none).2 alice.id = some p' ∧
      p'.id = alice.id ∧ p'.email = alice.email ∧ p'.username = alice.username ∧
      p'.password = alice.password ∧ p'.created_at = alice.created_at ∧
      p'.is_online = alice.is_online ∧ p'.last_seen = alice.last_seen ∧
      p'.is_blocked = alice.is_blocked ∧
      p'.full_name = (match some "Alice B" with | some v => some v | none => alice.full_name) ∧
      p'.avatar_url = (match (none : Option String) with | some v => some v | none => alice.avatar_url)) :=
  ⟨by decide, patchProfileMe_frame db0 alice alice (some "Alice B") none (by decide)⟩

/-! ### C1 — unread count -/

/-- Claim-side unread predicate, following the claim's words: conversation is
`c`, sender is not `u`, and the message is not yet marked read — where a
message whose `is_read` was never set also counts as not yet marked read. -/
def specUnread (c u : Nat) (m : Message) : Bool :=
  m.conversation_id == c && m.sender_id != u && m.is_read != some true

/-- Claim-side unread count, following the claim's words. -/
def specUnreadCount (db : DB) (c u : Nat) : Nat :=
  (db.messages.filter (specUnread c u)).length

/-- Reordering of a boolean conjunction (the code's WHERE clause lists the
same conjuncts in a different order than the claim). -/
theorem bool_and_rotate (x y z : Bool) : (x && y && z) = (x && z && y) := by
  cases x <;> cases y <;> cases z <;> rfl

/-- C1: on every state satisfying the reachable-state invariant (no NULL
`is_read`; inserts default the column to false), `getUnreadMessagesCount`
returns the number of messages of the conversation not sent by the user and
not yet marked read, messages whose `is_read` was never explicitly set
included. -/
theorem unreadCount_matches_spec (db : DB) (c u : Nat)
    (h : ReadFlagSet db.messages) :
    getUnreadMessagesCount db c u = specUnreadCount db c u := by
  unfold getUnreadMessagesCount specUnreadCount
  congr 1
  apply List.filter_congr
  intro m hm
  have hr := h m hm
  cases hmr : m.is_read with
  | none => exact absurd hmr hr
  | some b =>
      cases b <;> simp [isUnreadFor, specUnread, hmr, bool_and_rotate]

theorem unreadCount_matches_spec_witness :
    ReadFlagSet db0.messages ∧ getUnreadMessagesCount db0 10 2 = specUnreadCount db0 10 2 :=
  ⟨by unfold ReadFlagSet; decide,
   unreadCount_matches_spec db0 10 2 (by unfold ReadFlagSet; decide)⟩

/-! ### C2 — fetching messages marks them read -/

/-- C2: after a member's `GET /conversations/:id/messages` completes (on a
state satisfying the reachable-state invariant), every stored message of the
conversation not sent by that member is marked read, and the unread count
evaluated on the resulting state is zero. -/
theorem getMessages_marks_read (db : DB) (user : Profile) (c : Nat)
    (conv : Conversation)
    (hconv : getConversation db c = some conv)
    (hmem : conv.participant_1 = user.id ∨ conv.participant_2 = user.id)
    (hinv : ReadFlagSet db.messages) :
    (getMessagesHandler db user c).1.status = 200 ∧
    (∀ m ∈ (getMessagesHandler db user c).2.messages,
      m.conversation_id = c → m.sender_id ≠ user.id → m.is_read = some true) ∧
    getUnreadMessagesCount (getMessagesHandler db user c).2 c user.id = 0 := by
  have hguard : (conv.participant_1 != user.id && conv.participant_2 != user.id) = false := by
    rcases hmem with h | h <;> simp [h]
  have h1 : (getMessagesHandler db user c).1.status = 200 := by
    simp only [getMessagesHandler, hconv, hguard, Bool.false_eq_true, if_false]
  have h2 : (getMessagesHandler db user c).2 = markMessagesAsRead db c user.id := by
    simp only [getMessagesHandler, hconv, hguard, Bool.false_eq_true, if_false]
  refine ⟨h1, ?_, ?_⟩
  · rw [h2]
    intro m hm hc hs
    simp only [markMessagesAsRead, List.mem_map] at hm
    obtain ⟨m0, hm0, hmap⟩ := hm
    by_cases hcond : (m0.conversation_id == c && m0.sender_id != user.id && m0.is_read == some false) = true
    · rw [hcond] at hmap
      simp only [if_true] at hmap
      rw [← hmap]
    · rw [Bool.not_eq_true] at hcond
      rw [hcond] at hmap
      simp only [Bool.false_eq_true, if_false] at hmap
      subst hmap
      have hr := hinv m0 hm0
      cases hmr : m0.is_read with
      | none => exact absurd hmr hr
      | some b =>
          cases b
          · exfalso
            rw [hmr] at hcond
            simp [hc, hs] at hcond
          · rfl
  · rw [h2]
    unfold getUnreadMessagesCount
    rw [List.length_eq_zero]
    rw [List.filter_eq_nil_iff]
    intro a ha
    simp only [markMessagesAsRead, List.mem_map] at ha
    obtain ⟨m0, hm0, hmap⟩ := ha
    by_cases hcond : (m0.conversation_id == c && m0.sender_id != user.id && m0.is_read == some false) = true
    · rw [hcond] at hmap
      simp only [if_true] at hmap
      rw [← hmap]
      simp [isUnreadFor]
    · rw [Bool.not_eq_true] at hcond
      rw [hcond] at hmap
      simp only [Bool.false_eq_true, if_false] at hmap
      subst hmap
      rw [Bool.not_eq_true]
      calc isUnreadFor c user.id m0
          = (m0.conversation_id == c && m0.sender_id != user.id && m0.is_read == some false) := by
            unfold isUnreadFor
            exact bool_and_rotate _ _ _
        _ = false := hcond

theorem getMessages_marks_read_witness :
    (getConversation db0 10 = some conv12 ∧
     (conv12.participant_1 = bob.id ∨ conv12.participant_2 = bob.id) ∧
     ReadFlagSet db0.messages) ∧
    ((getMessagesHandler db0 bob 10).1.status = 200 ∧
     (∀ m ∈ (getMessagesHandler db0 bob 10).2.messages,
       m.conversation_id = 10 → m.sender_id ≠ bob.id → m.is_read = some true) ∧
     getUnreadMessagesCount (getMessagesHandler db0 bob 10).2 10 bob.id = 0) :=
  ⟨⟨by decide, by decide, by unfold ReadFlagSet; decide⟩,
   getMessages_marks_read db0 bob 10 conv12 (by decide) (by decide)
     (by unfold ReadFlagSet; decide)⟩

/-! ### C4 / C10 — sending a message -/

/-- The row `createMessage` inserts on behalf of `POST
/conversations/:id/messages`. -/
def sentMessage (db : DB) (user : Profile) (c : Nat) (content status : String)
    (off : Bool) : Message :=
  { id := db.nextId, conversation_id := c, sender_id := user.id, content := content
    status := status, is_offline := off, is_read := some false, is_deleted := some false
    reply_to_id := none, created_at := db.now }

/-- Evaluation of the send-message handler on the member path: the message is
inserted at time `db.now`, then the conversation row is stamped at time
`db.now + 1`. -/
theorem postMessageHandler_run (db : DB) (user : Profile) (c : Nat)
    (conv : Conversation) (content status : String) (off : Bool)
    (hconv : getConversation db c = some conv)
    (hguard : (conv.participant_1 != user.id && conv.participant_2 != user.id) = false) :
    postMessageHandler db user c content status off =
      ({ status := 200
         message := some { message := sentMessage db user c content status off
                           sender := some (sanitizeProfile user) }
         error := none },
       { db with
          messages := db.messages ++ [sentMessage db user c content status off]
          conversations := db.conversations.map (fun cv =>
            if cv.id == c then { cv with updated_at := db.now + 1 } else cv)
          nextId := db.nextId + 1
          now := db.now + 2 }) := by
  simp only [postMessageHandler, hconv, hguard, Bool.false_eq_true, if_false,
    createMessage, updateConversation, sentMessage]

/-- C4: a member's successful `POST /conversations/:id/messages` answers 200
and leaves the conversation's `updated_at` at a timestamp at least the
inserted message's `created_at`. -/
theorem postMessage_bumps_updated_at (db : DB) (user : Profile) (c : Nat)
    (conv : Conversation) (content status : String) (off : Bool)
    (hconv : getConversation db c = some conv)
    (hmem : conv.participant_1 = user.id ∨ conv.participant_2 = user.id) :
    (postMessageHandler db user c content status off).1.status = 200 ∧
    ∃ rm conv',
      (postMessageHandler db user c content status off).1.message = some rm ∧
      getConversation (postMessageHandler db user c content status off).2 c = some conv' ∧
      rm.message.created_at ≤ conv'.updated_at := by
  have hfind := List.find?_some hconv
  have hc' : db.conversations.find? (fun x => x.id == c) = some conv := hconv
  have hguard : (conv.participant_1 != user.id && conv.participant_2 != user.id) = false := by
    rcases hmem with h | h <;> simp [h]
  have hrun := postMessageHandler_run db user c conv content status off hconv hguard
  refine ⟨by rw [hrun], ?_⟩
  refine ⟨{ message := sentMessage db user c content status off
            sender := some (sanitizeProfile user) },
          { conv with updated_at := db.now + 1 }, by rw [hrun], ?_, ?_⟩
  · rw [hrun]
    show (db.conversations.map (fun cv =>
        if cv.id == c then { cv with updated_at := db.now + 1 } else cv)).find?
          (fun x => x.id == c) = _
    have hid : conv.id = c := by simpa using hfind
    rw [find?_map_eq (fun cv => if cv.id == c then { cv with updated_at := db.now + 1 } else cv)
      (fun x => x.id == c) ?_ db.conversations, hc']
    · simp [hid]
    · intro a
      by_cases ha : (a.id == c) = true
      · simp [ha]
      · simp [Bool.not_eq_true] at ha
        simp [ha]
  · exact Nat.le_succ db.now

theorem postMessage_bumps_updated_at_witness :
    (getConversation db0 10 = some conv12 ∧
     (conv12.participant_1 = alice.id ∨ conv12.participant_2 = alice.id)) ∧
    ((postMessageHandler db0 alice 10 "hey" "sent" false).1.status = 200 ∧
     ∃ rm conv',
       (postMessageHandler db0 alice 10 "hey" "sent" false).1.message = some rm ∧
       getConversation (postMessageHandler db0 alice 10 "hey" "sent" false).2 10 = some conv' ∧
       rm.message.created_at ≤ conv'.updated_at) :=
  ⟨⟨by decide, by decide⟩,
   postMessage_bumps_updated_at db0 alice 10 conv12 "hey" "sent" false
     (by decide) (by decide)⟩

/-- C10: through the authenticated send-message route, the inserted message's
`sender_id` is the id of the profile the token resolved to — whatever the
body carries — that user is one of the two participants, and a
non-participant (or unknown conversation) gets 403 with no message
inserted. -/
theorem postMessage_sender_is_authenticated_user (db : DB) (tok : Option Token)
    (user : Profile) (cid : Nat) (content status : String) (off : Bool)
    (hauth : authenticateToken db tok = AuthOutcome.ok user) :
    (getConversation db cid = none →
      (authedPostMessage db tok cid content status off).1.status = 403 ∧
      (authedPostMessage db tok cid content status off).2.messages = db.messages) ∧
    (∀ conv, getConversation db cid = some conv →
      ((conv.participant_1 ≠ user.id ∧ conv.participant_2 ≠ user.id) →
        (authedPostMessage db tok cid content status off).1.status = 403 ∧
        (authedPostMessage db tok cid content status off).2.messages = db.messages) ∧
      ((conv.participant_1 = user.id ∨ conv.participant_2 = user.id) →
        ∃ m, (authedPostMessage db tok cid content status off).2.messages = db.messages ++ [m] ∧
          m.sender_id = user.id ∧
          (user.id = conv.participant_1 ∨ user.id = conv.participant_2))) := by
  have hred : authedPostMessage db tok cid content status off =
      postMessageHandler db user cid content status off := by
    simp only [authedPostMessage, hauth]
  constructor
  · intro hnone
    rw [hred]
    simp [postMessageHandler, hnone]
  · intro conv hconv
    constructor
    · rintro ⟨hn1, hn2⟩
      have hguard : (conv.participant_1 != user.id && conv.participant_2 != user.id) = true := by
        simp [hn1, hn2]
      rw [hred]
      simp [postMessageHandler, hconv, hguard]
    · intro hmem
      have hguard : (conv.participant_1 != user.id && conv.participant_2 != user.id) = false := by
        rcases hmem with h | h <;> simp [h]
      have hrun := postMessageHandler_run db user cid conv content status off hconv hguard
      rw [hred, hrun]
      refine ⟨sentMessage db user cid content status off, rfl, rfl, ?_⟩
      rcases hmem with h | h
      · exact Or.inl h.symm
      · exact Or.inr h.symm

def aliceToken : Token := jwtSign JWT_SECRET alice.id

theorem postMessage_sender_is_authenticated_user_witness :
    (authenticateToken db0 (some aliceToken) = AuthOutcome.ok alice ∧
     getConversation db0 10 = some conv12 ∧
     (conv12.participant_1 = alice.id ∨ conv12.participant_2 = alice.id)) ∧
    (∃ m, (authedPostMessage db0 (some aliceToken) 10 "hello again" "sent" false).2.messages =
        db0.messages ++ [m] ∧
      m.sender_id = alice.id ∧
      (alice.id = conv12.participant_1 ∨ alice.id = conv12.participant_2)) :=
  ⟨⟨by decide, by decide, by decide⟩,
   ((postMessage_sender_is_authenticated_user db0 (some aliceToken) alice 10
       "hello again" "sent" false (by decide)).2 conv12 (by decide)).2 (by decide)⟩

/-! ### C3 — conversation creation is idempotent (sequentially) -/

/-- The unordered-pair test on a stored conversation row (the route's search
predicate, at the table level). -/
def convPairMatches (a b : Nat) (c : Conversation) : Bool :=
  (c.participant_1 == a && c.participant_2 == b) ||
  (c.participant_1 == b && c.participant_2 == a)

/-- Every row of `getConversationsForUser` comes from a stored conversation
with the same id and participants in which the user takes part. -/
theorem getConversationsForUser_sound (db : DB) (uid : Nat) (r : ConvRow)
    (hr : r ∈ getConversationsForUser db uid) :
    ∃ c ∈ db.conversations,
      (c.participant_1 == uid || c.participant_2 == uid) = true ∧
      r.id = c.id ∧ r.participant_1 = c.participant_1 ∧ r.participant_2 = c.participant_2 := by
  simp only [getConversationsForUser, List.mem_map] at hr
  obtain ⟨c, hc, hmap⟩ := hr
  rw [mem_sortBy] at hc
  rw [List.mem_filter] at hc
  exact ⟨c, hc.1, hc.2, by rw [← hmap], by rw [← hmap], by rw [← hmap]⟩

/-- Every stored conversation the user takes part in appears among the rows
of `getConversationsForUser`, with the same id and participants. -/
theorem getConversationsForUser_complete (db : DB) (uid : Nat) (c : Conversation)
    (hc : c ∈ db.conversations)
    (hcond : (c.participant_1 == uid || c.participant_2 == uid) = true) :
    ∃ r ∈ getConversationsForUser db uid,
      r.id = c.id ∧ r.participant_1 = c.participant_1 ∧ r.participant_2 = c.participant_2 := by
  refine ⟨{ id := c.id, participant_1 := c.participant_1, participant_2 := c.participant_2
            created_at := c.created_at, updated_at := c.updated_at
            other_participant := (db.profiles.find? (fun p =>
              (c.participant_1 == p.id && c.participant_2 == uid) ||
              (c.participant_2 == p.id && c.participant_1 == uid))).map toOtherParticipant },
          ?_, rfl, rfl, rfl⟩
  simp only [getConversationsForUser, List.mem_map]
  refine ⟨c, ?_, rfl⟩
  rw [mem_sortBy, List.mem_filter]
  exact ⟨hc, hcond⟩

/-- The route's in-memory pair search agrees with the table-level pair test
on corresponding rows. -/
theorem pairMatches_transfer (a b : Nat) (r : ConvRow) (c : Conversation)
    (h1 : r.participant_1 = c.participant_1) (h2 : r.participant_2 = c.participant_2) :
    pairMatches a b r = convPairMatches a b c := by
  simp [pairMatches, convPairMatches, h1, h2]

/-- C3: from a state holding at most one conversation row for the unordered
pair (the documented duplicate race aside), two sequential
`POST /conversations` requests by `A` targeting `B`'s username both answer
200 with the same conversation id, and exactly one conversation row for the
pair remains. -/
theorem postConversation_idempotent (db : DB) (A B : Profile) (uname : String)
    (hB : getProfileByUsername db uname = some B)
    (hAB : B.id ≠ A.id)
    (hpair : (db.conversations.filter (convPairMatches A.id B.id)).length ≤ 1) :
    (postConversationHandler db A uname).1.status = 200 ∧
    (postConversationHandler (postConversationHandler db A uname).2 A uname).1.status = 200 ∧
    ((postConversationHandler db A uname).1.convId).isSome = true ∧
    (postConversationHandler db A uname).1.convId =
      (postConversationHandler (postConversationHandler db A uname).2 A uname).1.convId ∧
    ((postConversationHandler (postConversationHandler db A uname).2 A uname).2.conversations.filter
      (convPairMatches A.id B.id)).length = 1 := by
  have hne : (B.id == A.id) = false := by simp [hAB]
  cases hfind : (getConversationsForUser db A.id).find? (pairMatches A.id B.id) with
  | some e =>
      have hrun1 : postConversationHandler db A uname =
          ({ status := 200, convId := some e.id
             participant_1 := some e.participant_1, participant_2 := some e.participant_2
             other_participant := some (sanitizeProfile B), error := none }, db) := by
        simp only [postConversationHandler, hB, hne, Bool.false_eq_true, if_false, hfind]
      have hp := List.find?_some hfind
      have hmemr := List.mem_of_find?_eq_some hfind
      obtain ⟨ce, hce, _, _, he1, he2⟩ := getConversationsForUser_sound db A.id e hmemr
      have hcp : convPairMatches A.id B.id ce = true := by
        rw [← pairMatches_transfer A.id B.id e ce he1 he2]
        exact hp
      have hcount : 1 ≤ (db.conversations.filter (convPairMatches A.id B.id)).length := by
        have : ce ∈ db.conversations.filter (convPairMatches A.id B.id) :=
          List.mem_filter.mpr ⟨hce, hcp⟩
        exact List.length_pos.mpr (List.ne_nil_of_mem this)
      rw [hrun1]
      rw [hrun1]
      exact ⟨rfl, rfl, rfl, rfl, Nat.le_antisymm hpair hcount⟩
  | none =>
      have hnomatch : ∀ c ∈ db.conversations, convPairMatches A.id B.id c = false := by
        intro c hc
        by_contra hcp
        rw [Bool.not_eq_false] at hcp
        have hcond : (c.participant_1 == A.id || c.participant_2 == A.id) = true := by
          simp only [convPairMatches, Bool.or_eq_true, Bool.and_eq_true] at hcp
          rcases hcp with ⟨h1, _⟩ | ⟨_, h2⟩
          · simp [h1]
          · simp [h2]
        obtain ⟨r, hr, _, hr1, hr2⟩ := getConversationsForUser_complete db A.id c hc hcond
        have := List.find?_eq_none.mp hfind r hr
        rw [pairMatches_transfer A.id B.id r c hr1 hr2] at this
        exact this hcp
      have hfilter0 : db.conversations.filter (convPairMatches A.id B.id) = [] :=
        List.filter_eq_nil_iff.mpr (by
          intro a ha
          rw [hnomatch a ha]
          exact Bool.false_ne_true)
      have hrun1 : postConversationHandler db A uname =
          ({ status := 200, convId := some db.nextId
             participant_1 := some A.id, participant_2 := some B.id
             other_participant := some (sanitizeProfile B), error := none },
           { db with
              conversations := db.conversations ++
                [{ id := db.nextId, participant_1 := A.id, participant_2 := B.id
                   created_at := db.now, updated_at := db.now }]
              nextId := db.nextId + 1, now := db.now + 1 }) := by
        simp only [postConversationHandler, hB, hne, Bool.false_eq_true, if_false, hfind,
          createConversation]
      set newc : Conversation :=
        { id := db.nextId, participant_1 := A.id, participant_2 := B.id
          created_at := db.now, updated_at := db.now } with hnewc
      set db1 : DB :=
        { db with conversations := db.conversations ++ [newc]
                  nextId := db.nextId + 1, now := db.now + 1 } with hdb1
      have hB1 : getProfileByUsername db1 uname = some B := hB
      have hnewmem : newc ∈ db1.conversations := by
        simp [hdb1]
      have hnewcond : (newc.participant_1 == A.id || newc.participant_2 == A.id) = true := by
        simp [hnewc]
      obtain ⟨rnew, hrnew, hrid, hrp1, hrp2⟩ :=
        getConversationsForUser_complete db1 A.id newc hnewmem hnewcond
      have hrnewp : pairMatches A.id B.id rnew = true := by
        rw [pairMatches_transfer A.id B.id rnew newc hrp1 hrp2]
        simp [convPairMatches, hnewc]
      cases hfind2 : (getConversationsForUser db1 A.id).find? (pairMatches A.id B.id) with
      | none =>
          exact absurd hrnewp (by
            have := List.find?_eq_none.mp hfind2 rnew hrnew
            simpa using this)
      | some r0 =>
          have hp0 := List.find?_some hfind2
          have hmem0 := List.mem_of_find?_eq_some hfind2
          obtain ⟨c0, hc0, _, hid0, h01, h02⟩ := getConversationsForUser_sound db1 A.id r0 hmem0
          have hc0p : convPairMatches A.id B.id c0 = true := by
            rw [← pairMatches_transfer A.id B.id r0 c0 h01 h02]
            exact hp0
          have hc0new : c0 = newc := by
            have : c0 ∈ db.conversations ++ [newc] := hc0
            rcases List.mem_append.mp this with hold | hnew
            · exact absurd hc0p (by rw [hnomatch c0 hold]; exact Bool.false_ne_true)
            · simpa using hnew
          have hid : r0.id = db.nextId := by
            rw [hid0, hc0new]
          have hrun2 : postConversationHandler db1 A uname =
              ({ status := 200, convId := some r0.id
                 participant_1 := some r0.participant_1, participant_2 := some r0.participant_2
                 other_participant := some (sanitizeProfile B), error := none }, db1) := by
            simp only [postConversationHandler, hB1, hne, Bool.false_eq_true, if_false, hfind2]
          rw [hrun1]
          rw [hrun2]
          refine ⟨rfl, rfl, rfl, by simp [hid], ?_⟩
          show ((db.conversations ++ [newc]).filter (convPairMatches A.id B.id)).length = 1
          rw [List.filter_append, hfilter0]
          simp [convPairMatches, hnewc]

theorem postConversation_idempotent_witness :
    (getProfileByUsername dbNoConv "bob" = some bob ∧
     bob.id ≠ alice.id ∧
     (dbNoConv.conversations.filter (convPairMatches alice.id bob.id)).length ≤ 1) ∧
    ((postConversationHandler dbNoConv alice "bob").1.status = 200 ∧
     (postConversationHandler (postConversationHandler dbNoConv alice "bob").2 alice "bob").1.status = 200 ∧
     ((postConversationHandler dbNoConv alice "bob").1.convId).isSome = true ∧
     (postConversationHandler dbNoConv alice "bob").1.convId =
       (postConversationHandler (postConversationHandler dbNoConv alice "bob").2 alice "bob").1.convId ∧
     ((postConversationHandler (postConversationHandler dbNoConv alice "bob").2 alice "bob").2.conversations.filter
       (convPairMatches alice.id bob.id)).length = 1) :=
  ⟨⟨by decide, by decide, by decide⟩,
   postConversation_idempotent dbNoConv alice bob "bob" (by decide) (by decide) (by decide)⟩

/-! ### C9 — responses never carry a defined password -/

/-- User objects of an auth response body (`user` and `session.user`). -/
def authResponseUsers (r : AuthResponse) : List ResponseUser :=
  r.user.toList ++ r.sessionUser.toList

/-- User objects of a profile response body. -/
def profileResponseUsers (r : ProfileResponse) : List ResponseUser :=
  r.user.toList

/-- `other_participant` objects of a conversation-list response body. -/
def conversationDetailsUsers (l : List ConversationDetail) : List ResponseUser :=
  l.filterMap (fun d => d.other_participant)

/-- `sender` objects of a message-list response body. -/
def messagesResponseUsers (r : MessagesResponse) : List ResponseUser :=
  (r.messages.getD []).filterMap (fun m => m.sender)

/-- `sender` object of a send-message response body. -/
def sendResponseUsers (r : SendResponse) : List ResponseUser :=
  (r.message.bind (fun m => m.sender)).toList

/-- C9: no user object placed in any route's JSON response body — signup,
signin, current user, conversation list (other participants), message fetch
(senders), message send (sender), profile search — carries a defined
`password` field. -/
theorem api_responses_omit_password (db : DB) (email username password : String)
    (full_name : Option String) (e2 pw : String) (tok : Option Token)
    (user : Profile) (cid : Nat) (content mstatus : String) (off : Bool)
    (q : String) :
    (∀ ru ∈ authResponseUsers (signupHandler db email username password full_name).1,
      ru.password = none) ∧
    (∀ ru ∈ authResponseUsers (signinHandler db e2 pw), ru.password = none) ∧
    (∀ ru ∈ profileResponseUsers (getAuthUserHandler db tok), ru.password = none) ∧
    (∀ ru ∈ conversationDetailsUsers (getConversationsHandler db user), ru.password = none) ∧
    (∀ ru ∈ messagesResponseUsers (getMessagesHandler db user cid).1, ru.password = none) ∧
    (∀ ru ∈ sendResponseUsers (postMessageHandler db user cid content mstatus off).1,
      ru.password = none) ∧
    (∀ ru ∈ profileResponseUsers (searchProfileHandler db q), ru.password = none) := by
  refine ⟨?_, ?_, ?_, ?_, ?_, ?_, ?_⟩
  · intro ru hru
    cases hE : getProfileByEmail db email with
    | some p => simp [signupHandler, hE, authResponseUsers] at hru
    | none =>
        cases hU : getProfileByUsername db username with
        | some p => simp [signupHandler, hE, hU, authResponseUsers] at hru
        | none =>
            simp [signupHandler, hE, hU, createProfile, authResponseUsers] at hru
            rw [hru]
            simp
  · intro ru hru
    cases hE : getProfileByEmail db e2 with
    | none => simp [signinHandler, hE, authResponseUsers] at hru
    | some p =>
        cases hcmp : bcryptCompare pw p.password with
        | false => simp [signinHandler, hE, hcmp, authResponseUsers] at hru
        | true =>
            simp [signinHandler, hE, hcmp, authResponseUsers] at hru
            rw [hru]
            simp
  · intro ru hru
    cases hA : authenticateToken db tok with
    | noToken => simp [getAuthUserHandler, hA, profileResponseUsers] at hru
    | badToken => simp [getAuthUserHandler, hA, profileResponseUsers] at hru
    | unknownUser => simp [getAuthUserHandler, hA, profileResponseUsers] at hru
    | ok u =>
        simp [getAuthUserHandler, hA, profileResponseUsers] at hru
        rw [hru]
        simp
  · intro ru hru
    simp only [conversationDetailsUsers, List.mem_filterMap] at hru
    obtain ⟨d, hd, hdp⟩ := hru
    simp only [getConversationsHandler, List.mem_map] at hd
    obtain ⟨conv, _, hconv⟩ := hd
    rw [← hconv] at hdp
    simp only [Option.map_eq_some'] at hdp
    obtain ⟨p, _, hp⟩ := hdp
    rw [← hp]
    simp
  · intro ru hru
    cases hc : getConversation db cid with
    | none => simp [getMessagesHandler, hc, messagesResponseUsers] at hru
    | some conv =>
        by_cases hg : (conv.participant_1 != user.id && conv.participant_2 != user.id) = true
        · simp [getMessagesHandler, hc, hg, messagesResponseUsers] at hru
        · rw [Bool.not_eq_true] at hg
          simp only [getMessagesHandler, hc, hg, Bool.false_eq_true, if_false,
            messagesResponseUsers, Option.getD_some, List.mem_filterMap, List.mem_map] at hru
          obtain ⟨rm, ⟨m0, _, hm0⟩, hsend⟩ := hru
          rw [← hm0] at hsend
          simp only [Option.map_eq_some'] at hsend
          obtain ⟨p, _, hp⟩ := hsend
          rw [← hp]
          simp
  · intro ru hru
    cases hc : getConversation db cid with
    | none => simp [postMessageHandler, hc, sendResponseUsers] at hru
    | some conv =>
        by_cases hg : (conv.participant_1 != user.id && conv.participant_2 != user.id) = true
        · simp [postMessageHandler, hc, hg, sendResponseUsers] at hru
        · rw [Bool.not_eq_true] at hg
          simp [postMessageHandler, hc, hg, createMessage, updateConversation,
            sendResponseUsers] at hru
          rw [hru]
          simp
  · intro ru hru
    cases hQ : getProfileByUsername db q with
    | none => simp [searchProfileHandler, hQ, profileResponseUsers] at hru
    | some p =>
        simp [searchProfileHandler, hQ, profileResponseUsers] at hru
        rw [hru]
        simp

theorem api_responses_omit_password_witness :
    (sanitizeProfile alice).password = none :=
  (api_responses_omit_password db0 "" "" "" none "" "" none alice 0 "" "" false
      "alice").2.2.2.2.2.2 (sanitizeProfile alice) (by decide)

end Wasl
